import Mathlib

/-!
Shallow embedding of `src/main.py` from the `seormon` repository: a
sequential audio-processing pipeline (probe duration with ffprobe, speed
up with ffmpeg when too long for the transcription service, transcribe
with a cached transcript file, summarize, persist artifacts).

External effects are made explicit:
* the filesystem is an association list from path strings to file contents
  (a write conses a new binding, so the newest binding shadows older ones);
* external observations (ffprobe duration, transcription API result,
  summarization API result, the on-disk byte size of a file) are oracle
  functions supplied to each operation;
* every subprocess invocation and API call is recorded in an event trace.

Durations are rationals (Python floats are modelled by exact arithmetic).
-/

namespace Seormon

/-- The filesystem: newest binding first; a path exists iff it has a binding. -/
abbrev FS : Type := List (String × String)

/-- Look up a file's content; `none` means the path does not exist. -/
def FS.read (fs : FS) (p : String) : Option String :=
  List.lookup p fs

/-- Writing a file shadows any previous binding for the same path. -/
def FS.write (fs : FS) (p c : String) : FS :=
  (p, c) :: fs

/-- A path exists iff lookup succeeds. -/
def FS.pathExists (fs : FS) (p : String) : Bool :=
  (fs.read p).isSome

/-- Responses of the external world: ffprobe durations, transcription and
summarization API outputs, and the byte size of each file on disk (never
consulted by the program; present to state that it is never consulted). -/
structure Oracles where
  duration : String → ℚ
  transcription : String → String
  summaryOut : String → String
  fileSize : String → ℕ

/-- Observable external effects of a run: subprocess invocations and API calls. -/
inductive Event where
  | probe : String → Event
  | ffmpeg : String → ℚ → String → Event
  | transcribeAPI : String → Event
  | summarizeAPI : String → Event
deriving DecidableEq, Repr

/-- `WHISPER1_MAX_AUDIO_DURATION_SEC = 1500` from `main.py`. -/
def WHISPER1_MAX_AUDIO_DURATION_SEC : ℚ := 1500

/-- `GPT40_MAX_AUDIO_SIZE_BYTES = 26_214_400` from `main.py`. -/
def GPT40_MAX_AUDIO_SIZE_BYTES : ℕ := 26214400

/-- Index of the last `'.'` in a character list, if any. -/
def rfindDot : List Char → Option ℕ
  | [] => none
  | c :: cs =>
    match rfindDot cs with
    | some i => some (i + 1)
    | none => if c = '.' then some 0 else none

/-- Python `PurePath.suffix` on a bare file name: the part from the last dot,
unless the dot is the first or the last character of the name. -/
def pySuffix (s : String) : String :=
  match rfindDot s.data with
  | none => ""
  | some i => if 0 < i ∧ i + 1 < s.data.length then String.mk (s.data.drop i) else ""

/-- Python `PurePath.stem` on a bare file name: the name minus `pySuffix`. -/
def stemOf (s : String) : String :=
  String.mk (s.data.take (s.data.length - (pySuffix s).data.length))

/-- Python `PurePath.with_suffix` on a bare file name: drop the old suffix
(if any) and append the new one. -/
def withSuffix (s suf : String) : String :=
  stemOf s ++ suf

/-- The integer `ceil(length_sec / WHISPER1_MAX_AUDIO_DURATION_SEC * 10)`
from `process_audio_file`. -/
def speedNum (d : ℚ) : ℤ :=
  ⌈d / WHISPER1_MAX_AUDIO_DURATION_SEC * 10⌉

/-- `new_speed = ceil(length_sec / WHISPER1_MAX_AUDIO_DURATION_SEC * 10) / 10`. -/
def speed_multiplier (d : ℚ) : ℚ :=
  (speedNum d : ℚ) / 10

/-- Python's `str()` of the float `k / 10` for the speed values arising here:
`"1.1"`, `"2.2"`, `"2.0"`, … -/
def formatSpeed (k : ℤ) : String :=
  toString (k.toNat / 10) ++ "." ++ toString (k.toNat % 10)

/-- The destination path `audio_file.with_suffix(f".x{new_speed}.mp3")`. -/
def adjustedPath (audio_file : String) (k : ℤ) : String :=
  withSuffix audio_file (".x" ++ formatSpeed k ++ ".mp3")

/-- `transcribe_audio`: opens the file and submits it to the transcription
API unconditionally; no size-based guard exists in the source. -/
def transcribe_audio (o : Oracles) (audio_file : String) : String × List Event :=
  (o.transcription audio_file, [Event.transcribeAPI audio_file])

/-- `change_audio_speed`: runs ffmpeg with an `atempo` filter, overwriting
the output file; the produced audio content is abstracted as a marker. -/
def change_audio_speed (fs : FS) (audio_file : String) (speed : ℚ) (out_file : String) :
    FS × List Event :=
  (fs.write out_file ("spedup:" ++ audio_file), [Event.ffmpeg audio_file speed out_file])

/-- `process_audio_file`: validate existence, probe the duration, and speed
the audio up when it exceeds the transcription duration limit, reusing an
existing sped-up file when present.  The `Except` error is the
`FileNotFoundError` message. -/
def process_audio_file (o : Oracles) (fs : FS) (audio_file : String) :
    Except String (String × FS × List Event) :=
  if ¬ fs.pathExists audio_file then
    .error ("Audio file does not exist: " ++ audio_file)
  else
    let length_sec := o.duration audio_file
    if length_sec ≤ WHISPER1_MAX_AUDIO_DURATION_SEC then
      .ok (audio_file, fs, [Event.probe audio_file])
    else
      let out := adjustedPath audio_file (speedNum length_sec)
      if fs.pathExists out then
        .ok (out, fs, [Event.probe audio_file])
      else
        let (fs', ev) := change_audio_speed fs audio_file (speed_multiplier length_sec) out
        .ok (out, fs', Event.probe audio_file :: ev)

/-- `get_transcript`: reuse the cached transcript file when it exists,
otherwise transcribe and persist the result. -/
def get_transcript (o : Oracles) (fs : FS) (audio_file : String) :
    String × FS × List Event :=
  let transcription_file := withSuffix audio_file ".transcript.txt"
  match fs.read transcription_file with
  | some cached => (cached, fs, [])
  | none =>
    let (transcript, ev) := transcribe_audio o audio_file
    (transcript, fs.write transcription_file transcript, ev)

/-- The fixed default instruction of `summarize_text`. -/
def defaultInstruction : String :=
  "Start it with a question to the listener."

/-- Python truthiness of `additional_instructions`: `None` and `""` fall
back to the default instruction. -/
def chooseInstruction (additional_instructions : Option String) : String :=
  match additional_instructions with
  | none => defaultInstruction
  | some s => if s = "" then defaultInstruction else s

/-- The fixed framing sentence that opens the prompt. -/
def promptHeader : String :=
  "The following is a transcript of a sunday sermon. Please summarize it in a brief paragraph. "

/-- The SEO-keyphrase request sentence of the prompt. -/
def seoRequest : String :=
  "Also generate an SEO keyphrase that can be used to help people search for this sermon on the internet:\n\n"

/-- The prompt `summarize_text` sends: framing, instruction, keyphrase
request, then the transcript body. -/
def buildPrompt (text instruction : String) : String :=
  promptHeader ++ instruction ++ ". " ++ seoRequest ++ text

/-- `summarize_text`: build the prompt and call the text-generation API. -/
def summarize_text (o : Oracles) (text : String) (additional_instructions : Option String) :
    String × List Event :=
  let prompt := buildPrompt text (chooseInstruction additional_instructions)
  (o.summaryOut prompt, [Event.summarizeAPI prompt])

/-- `generate_and_save_summary`: always summarize (no cache check), then
persist the summary next to the audio file. -/
def generate_and_save_summary (o : Oracles) (fs : FS) (audio_file transcript : String)
    (additional_instructions : Option String) : FS × List Event :=
  let (summary, ev) := summarize_text o transcript additional_instructions
  (fs.write (withSuffix audio_file ".summary.txt") summary, ev)

/-- Result of one CLI invocation: exit code, final filesystem, the trace of
subprocess/API events, and the error lines printed by the top-level handler. -/
structure RunResult where
  exitCode : ℕ
  fs : FS
  events : List Event
  errors : List String

/-- `main`: run the four stages in order; a `FileNotFoundError` from
validation is caught and reported with exit code 1. -/
def main (o : Oracles) (fs : FS) (audio_file : String)
    (instructions : Option String) : RunResult :=
  match process_audio_file o fs audio_file with
  | .error e => ⟨1, fs, [], ["Error: " ++ e]⟩
  | .ok (processed, fs1, ev1) =>
    let (transcript, fs2, ev2) := get_transcript o fs1 processed
    let (fs3, ev3) := generate_and_save_summary o fs2 processed transcript instructions
    ⟨0, fs3, ev1 ++ ev2 ++ ev3, []⟩

/-! ## Fixtures for concrete evaluations -/

/-- A filesystem holding only the source audio file. -/
def fs0 : FS := [("sermon.mp3", "AUDIOBYTES")]

/-- Oracles for a short recording (1200 s). -/
def o0 : Oracles :=
  ⟨fun _ => 1200, fun _ => "HELLO TRANSCRIPT", fun _ => "SUMMARY", fun _ => 1000⟩

/-- Oracles for a long recording (1650 s, multiplier 1.1). -/
def o1 : Oracles :=
  ⟨fun _ => 1650, fun _ => "HELLO TRANSCRIPT", fun _ => "SUMMARY", fun _ => 1000⟩

/-- Oracles for a file one byte over the 25 MB limit. -/
def oBig : Oracles :=
  ⟨fun _ => 1200, fun _ => "HELLO TRANSCRIPT", fun _ => "SUMMARY", fun _ => 26214401⟩

/-- A filesystem that also holds a cached transcript for `sermon.mp3`. -/
def fs1 : FS := [("sermon.transcript.txt", "CACHED"), ("sermon.mp3", "AUDIOBYTES")]

/-- The empty filesystem: no path exists. -/
def fsEmpty : FS := []

/-- Number of summarization API calls in a trace. -/
def countSummarize (l : List Event) : ℕ :=
  (l.filter fun e => match e with | Event.summarizeAPI _ => true | _ => false).length

/-! ## Helper lemmas -/

/-- `countSummarize` is additive over concatenation. -/
theorem countSummarize_append (l₁ l₂ : List Event) :
    countSummarize (l₁ ++ l₂) = countSummarize l₁ + countSummarize l₂ := by
  simp [countSummarize, List.filter_append]

/-- A successful `process_audio_file` emits no summarization call. -/
theorem process_audio_file_no_summarize (o : Oracles) (fs : FS) (a p : String)
    (fs' : FS) (ev : List Event)
    (h : process_audio_file o fs a = .ok (p, fs', ev)) :
    countSummarize ev = 0 := by
  simp only [process_audio_file, change_audio_speed] at h
  split at h
  · exact absurd h (by simp)
  · split at h
    · simp only [Except.ok.injEq, Prod.mk.injEq] at h
      rw [← h.2.2]
      rfl
    · split at h
      · simp only [Except.ok.injEq, Prod.mk.injEq] at h
        rw [← h.2.2]
        rfl
      · simp only [Except.ok.injEq, Prod.mk.injEq] at h
        rw [← h.2.2]
        rfl

/-- `get_transcript` emits no summarization call. -/
theorem get_transcript_no_summarize (o : Oracles) (fs : FS) (a : String) :
    countSummarize (get_transcript o fs a).2.2 = 0 := by
  unfold get_transcript transcribe_audio
  rcases hr : fs.read (withSuffix a ".transcript.txt") with _ | c <;> simp [hr, countSummarize]

/-- The multiplier always dominates `d / 1500`: the ceiling rounds up. -/
theorem div_le_speed_multiplier (d : ℚ) : d / 1500 ≤ speed_multiplier d := by
  unfold speed_multiplier speedNum WHISPER1_MAX_AUDIO_DURATION_SEC
  rw [le_div_iff₀ (by norm_num : (0:ℚ) < 10)]
  exact Int.le_ceil _

/-! ## Claims -/

/-- C1: for every duration `d > 1500` the pipeline's speed multiplier equals
`ceil(d / 1500 * 10) / 10` and is strictly greater than `1.0`. -/
theorem speed_multiplier_formula_and_gt_one (d : ℚ)
    (h : WHISPER1_MAX_AUDIO_DURATION_SEC < d) :
    speed_multiplier d = (⌈d / 1500 * 10⌉ : ℚ) / 10 ∧ 1 < speed_multiplier d := by
  unfold WHISPER1_MAX_AUDIO_DURATION_SEC at h
  constructor
  · rfl
  · have h1 : (1:ℚ) < d / 1500 := by rw [lt_div_iff₀ (by norm_num)]; linarith
    have h2 : (10:ℚ) < d / 1500 * 10 := by linarith
    have h3 : (10:ℚ) < (⌈d / 1500 * 10⌉ : ℚ) := lt_of_lt_of_le h2 (Int.le_ceil _)
    unfold speed_multiplier speedNum WHISPER1_MAX_AUDIO_DURATION_SEC
    rw [lt_div_iff₀ (by norm_num : (0:ℚ) < 10)]
    linarith

/-- Witness for C1 at `d = 3200`. -/
theorem speed_multiplier_formula_and_gt_one_witness :
    WHISPER1_MAX_AUDIO_DURATION_SEC < (3200:ℚ) ∧
    (speed_multiplier 3200 = (⌈(3200:ℚ) / 1500 * 10⌉ : ℚ) / 10 ∧
      1 < speed_multiplier 3200) :=
  ⟨by norm_num [WHISPER1_MAX_AUDIO_DURATION_SEC],
   speed_multiplier_formula_and_gt_one 3200
     (by norm_num [WHISPER1_MAX_AUDIO_DURATION_SEC])⟩

/-- C2: for every duration `d > 1500`, the effective duration after the
speed adjustment, `d / speed_multiplier d`, is at most 1500 seconds. -/
theorem adjusted_duration_within_limit (d : ℚ)
    (h : WHISPER1_MAX_AUDIO_DURATION_SEC < d) :
    d / speed_multiplier d ≤ WHISPER1_MAX_AUDIO_DURATION_SEC := by
  unfold WHISPER1_MAX_AUDIO_DURATION_SEC at *
  have hle := div_le_speed_multiplier d
  have hd0 : (0:ℚ) < d := by linarith
  have hm0 : 0 < speed_multiplier d := lt_of_lt_of_le (by positivity) hle
  rw [div_le_iff₀ hm0]
  have hmul := mul_le_mul_of_nonneg_left hle (by norm_num : (0:ℚ) ≤ 1500)
  have heq : (1500:ℚ) * (d / 1500) = d := by field_simp
  linarith

/-- Witness for C2 at `d = 1650`. -/
theorem adjusted_duration_within_limit_witness :
    WHISPER1_MAX_AUDIO_DURATION_SEC < (1650:ℚ) ∧
    (1650:ℚ) / speed_multiplier 1650 ≤ WHISPER1_MAX_AUDIO_DURATION_SEC :=
  ⟨by norm_num [WHISPER1_MAX_AUDIO_DURATION_SEC],
   adjusted_duration_within_limit 1650
     (by norm_num [WHISPER1_MAX_AUDIO_DURATION_SEC])⟩

/-- C3: for a duration at most 1500 seconds, `process_audio_file` makes no
speed adjustment and returns the original path unchanged, so every later
stage of `main` operates on the original file; no ffmpeg invocation occurs
anywhere in the run. -/
theorem short_audio_passthrough (o : Oracles) (fs : FS) (a : String) (i : Option String)
    (hex : fs.pathExists a = true)
    (hd : o.duration a ≤ WHISPER1_MAX_AUDIO_DURATION_SEC) :
    process_audio_file o fs a = .ok (a, fs, [Event.probe a]) ∧
    main o fs a i =
      ⟨0, (generate_and_save_summary o (get_transcript o fs a).2.1 a
             (get_transcript o fs a).1 i).1,
       Event.probe a :: ((get_transcript o fs a).2.2 ++
         (generate_and_save_summary o (get_transcript o fs a).2.1 a
            (get_transcript o fs a).1 i).2), []⟩ ∧
    ∀ src s out, Event.ffmpeg src s out ∉ (main o fs a i).events := by
  have h1 : process_audio_file o fs a = .ok (a, fs, [Event.probe a]) := by
    unfold process_audio_file
    rw [if_neg (by simp [hex]), if_pos hd]
  have h2 : main o fs a i =
      ⟨0, (generate_and_save_summary o (get_transcript o fs a).2.1 a
             (get_transcript o fs a).1 i).1,
       Event.probe a :: ((get_transcript o fs a).2.2 ++
         (generate_and_save_summary o (get_transcript o fs a).2.1 a
            (get_transcript o fs a).1 i).2), []⟩ := by
    unfold main
    rw [h1]
    rfl
  refine ⟨h1, h2, ?_⟩
  intro src s out
  simp only [h2, List.mem_cons, List.mem_append]
  rintro (h | h | h)
  · exact Event.noConfusion h
  · revert h
    unfold get_transcript transcribe_audio
    rcases hr : fs.read (withSuffix a ".transcript.txt") with _ | c <;> simp [hr]
  · revert h
    unfold generate_and_save_summary summarize_text
    simp

/-- Witness for C3: a 1200-second recording passes through untouched. -/
theorem short_audio_passthrough_witness :
    fs0.pathExists "sermon.mp3" = true ∧
    o0.duration "sermon.mp3" ≤ WHISPER1_MAX_AUDIO_DURATION_SEC ∧
    process_audio_file o0 fs0 "sermon.mp3" =
      .ok ("sermon.mp3", fs0, [Event.probe "sermon.mp3"]) :=
  ⟨by decide, by norm_num [o0, WHISPER1_MAX_AUDIO_DURATION_SEC],
   (short_audio_passthrough o0 fs0 "sermon.mp3" none (by decide)
     (by norm_num [o0, WHISPER1_MAX_AUDIO_DURATION_SEC])).1⟩

/-- C4: if the transcript file exists at the expected path its contents are
returned without calling the transcription API, regardless of staleness; if
it does not exist the Transcriber is called and its result persisted there,
so a second run on the same input makes no transcription call. -/
theorem transcript_cache (o : Oracles) (fs : FS) (a : String) :
    (∀ c, fs.read (withSuffix a ".transcript.txt") = some c →
        get_transcript o fs a = (c, fs, [])) ∧
    (fs.read (withSuffix a ".transcript.txt") = none →
        get_transcript o fs a =
          (o.transcription a,
           fs.write (withSuffix a ".transcript.txt") (o.transcription a),
           [Event.transcribeAPI a]) ∧
        get_transcript o (fs.write (withSuffix a ".transcript.txt") (o.transcription a)) a =
          (o.transcription a,
           fs.write (withSuffix a ".transcript.txt") (o.transcription a), [])) := by
  refine ⟨fun c hc => ?_, fun hn => ⟨?_, ?_⟩⟩
  · simp only [get_transcript]
    rw [hc]
  · simp only [get_transcript, transcribe_audio]
    rw [hn]
  · simp only [get_transcript]
    have hw : (fs.write (withSuffix a ".transcript.txt") (o.transcription a)).read
        (withSuffix a ".transcript.txt") = some (o.transcription a) := by
      unfold FS.write FS.read
      simp [List.lookup]
    rw [hw]

/-- Witness for C4: a cached transcript is returned with no API call. -/
theorem transcript_cache_witness :
    fs1.read (withSuffix "sermon.mp3" ".transcript.txt") = some "CACHED" ∧
    get_transcript o0 fs1 "sermon.mp3" = ("CACHED", fs1, []) :=
  ⟨by decide, (transcript_cache o0 fs1 "sermon.mp3").1 "CACHED" (by decide)⟩

/-- C5: the summarization API is invoked on every call of
`generate_and_save_summary` — no artifact suppresses it — and every run of
`main` that exits 0 makes exactly one summarization call. -/
theorem summary_always_invoked (o : Oracles) (fs : FS) (a t : String) (i : Option String) :
    (generate_and_save_summary o fs a t i).2 =
      [Event.summarizeAPI (buildPrompt t (chooseInstruction i))] ∧
    ∀ (fsx : FS) (ax : String), (main o fsx ax i).exitCode = 0 →
      countSummarize (main o fsx ax i).events = 1 := by
  refine ⟨rfl, fun fsx ax h0 => ?_⟩
  rcases hp : process_audio_file o fsx ax with e | ⟨p, fsp, evp⟩
  · exfalso
    unfold main at h0
    rw [hp] at h0
    simp at h0
  · have h2 : main o fsx ax i =
        ⟨0, (generate_and_save_summary o (get_transcript o fsp p).2.1 p
               (get_transcript o fsp p).1 i).1,
         (evp ++ (get_transcript o fsp p).2.2) ++
           (generate_and_save_summary o (get_transcript o fsp p).2.1 p
              (get_transcript o fsp p).1 i).2, []⟩ := by
      unfold main
      rw [hp]
    simp only [h2]
    rw [countSummarize_append, countSummarize_append,
      process_audio_file_no_summarize o fsx ax p fsp evp hp,
      get_transcript_no_summarize]
    rfl

/-- Witness for C5: a successful run contains one summarization call. -/
theorem summary_always_invoked_witness :
    (main o0 fs0 "sermon.mp3" none).exitCode = 0 ∧
    countSummarize (main o0 fs0 "sermon.mp3" none).events = 1 :=
  ⟨by decide,
   (summary_always_invoked o0 fs0 "sermon.mp3" "T" none).2 fs0 "sermon.mp3" (by decide)⟩

/-- C6: on a nonexistent audio source path, `main` exits with code 1, prints
an error message containing the path, and makes zero subprocess invocations
and zero API calls. -/
theorem missing_source_file (o : Oracles) (fs : FS) (a : String) (i : Option String)
    (h : fs.read a = none) :
    main o fs a i = ⟨1, fs, [], ["Error: Audio file does not exist: " ++ a]⟩ ∧
    (main o fs a i).events = [] ∧
    List.IsInfix a.data ("Error: Audio file does not exist: " ++ a).data := by
  have hp : process_audio_file o fs a = .error ("Audio file does not exist: " ++ a) := by
    unfold process_audio_file
    rw [if_pos]
    simp [FS.pathExists, h]
  have h1 : main o fs a i = ⟨1, fs, [], ["Error: Audio file does not exist: " ++ a]⟩ := by
    unfold main
    rw [hp]
    rfl
  exact ⟨h1, by rw [h1],
    ⟨("Error: Audio file does not exist: " : String).data, [],
     by simp [String.data_append]⟩⟩

/-- Witness for C6 at the path `missing.mp3` on an empty filesystem. -/
theorem missing_source_file_witness :
    main o0 fsEmpty "missing.mp3" none =
      ⟨1, fsEmpty, [], ["Error: Audio file does not exist: missing.mp3"]⟩ :=
  (missing_source_file o0 fsEmpty "missing.mp3" none rfl).1

/-- C7: for stem `sermon` and multiplier 1.1 the speed-adjusted output path
is exactly `sermon.x1.1.mp3`; in general it is the original stem with
`.x<factor>.mp3` appended, and a pipeline run at duration 1650 s writes and
returns that path. -/
theorem adjusted_filename :
    adjustedPath "sermon.mp3" 11 = "sermon.x1.1.mp3" ∧
    (∀ (a : String) (k : ℤ),
        adjustedPath a k = stemOf a ++ (".x" ++ formatSpeed k ++ ".mp3")) ∧
    process_audio_file o1 fs0 "sermon.mp3" =
      .ok ("sermon.x1.1.mp3", fs0.write "sermon.x1.1.mp3" "spedup:sermon.mp3",
           [Event.probe "sermon.mp3",
            Event.ffmpeg "sermon.mp3" (11 / 10) "sermon.x1.1.mp3"]) := by
  have hk : speedNum (o1.duration "sermon.mp3") = 11 := by
    unfold speedNum WHISPER1_MAX_AUDIO_DURATION_SEC
    rw [show (o1.duration "sermon.mp3" / 1500 * 10 : ℚ) = ((11:ℤ):ℚ) by norm_num [o1]]
    exact Int.ceil_intCast 11
  have hm : speed_multiplier (o1.duration "sermon.mp3") = 11 / 10 := by
    unfold speed_multiplier
    rw [hk]
    norm_num
  refine ⟨by decide, fun a k => rfl, ?_⟩
  simp only [process_audio_file, change_audio_speed, hk, hm]
  rfl

/-- C8: for every transcript text and the default instruction, the prompt
contains the literal default instruction sentence, contains the
SEO-keyphrase request, and has the transcript text appended at the end. -/
theorem prompt_structure (o : Oracles) (text : String) :
    List.IsInfix defaultInstruction.data (buildPrompt text (chooseInstruction none)).data ∧
    List.IsInfix ("SEO keyphrase" : String).data
      (buildPrompt text (chooseInstruction none)).data ∧
    List.IsSuffix text.data (buildPrompt text (chooseInstruction none)).data ∧
    (summarize_text o text none).2 =
      [Event.summarizeAPI (buildPrompt text defaultInstruction)] := by
  refine ⟨?_, ?_, ?_, rfl⟩
  · exact ⟨promptHeader.data, (". " ++ seoRequest ++ text).data,
      by simp [buildPrompt, chooseInstruction, String.data_append]⟩
  · have hseo : seoRequest =
        "Also generate an " ++ "SEO keyphrase" ++
        " that can be used to help people search for this sermon on the internet:\n\n" := by
      rfl
    refine ⟨(promptHeader ++ defaultInstruction ++ ". " ++ "Also generate an ").data,
      (" that can be used to help people search for this sermon on the internet:\n\n"
        ++ text).data, ?_⟩
    simp [buildPrompt, chooseInstruction, hseo, String.data_append]
  · exact ⟨(promptHeader ++ defaultInstruction ++ ". " ++ seoRequest).data,
      by simp [buildPrompt, chooseInstruction, String.data_append]⟩

/-- C9: the 25 MB constant is defined but never enforced — the Transcriber
submits every file unconditionally (even one larger than the constant), no
oversized-payload error is ever raised, and the pipeline result is
independent of file sizes. -/
theorem size_limit_never_enforced :
    GPT40_MAX_AUDIO_SIZE_BYTES = 26214400 ∧
    (∀ (o : Oracles) (a : String),
        transcribe_audio o a = (o.transcription a, [Event.transcribeAPI a])) ∧
    (∀ (dur : String → ℚ) (tr su : String → String) (sz₁ sz₂ : String → ℕ)
        (fs : FS) (a : String) (i : Option String),
        main ⟨dur, tr, su, sz₁⟩ fs a i = main ⟨dur, tr, su, sz₂⟩ fs a i) ∧
    (∀ (o : Oracles) (a : String), GPT40_MAX_AUDIO_SIZE_BYTES < o.fileSize a →
        transcribe_audio o a = (o.transcription a, [Event.transcribeAPI a])) :=
  ⟨rfl, fun _ _ => rfl, fun _ _ _ _ _ _ _ _ => rfl, fun _ _ _ => rfl⟩

/-- Witness for C9: a file one byte over the limit is still submitted. -/
theorem size_limit_never_enforced_witness :
    GPT40_MAX_AUDIO_SIZE_BYTES < oBig.fileSize "sermon.mp3" ∧
    transcribe_audio oBig "sermon.mp3" =
      (oBig.transcription "sermon.mp3", [Event.transcribeAPI "sermon.mp3"]) :=
  ⟨by decide, size_limit_never_enforced.2.2.2 oBig "sermon.mp3" (by decide)⟩

/-- C10: an empty caller-supplied instruction string is treated as absent —
the summarizer falls back to the default instruction; a non-empty override
takes effect verbatim. -/
theorem empty_instruction_falls_back (o : Oracles) (text : String) :
    chooseInstruction (some "") = defaultInstruction ∧
    summarize_text o text (some "") = summarize_text o text none ∧
    ∀ s : String, s ≠ "" → chooseInstruction (some s) = s := by
  refine ⟨by decide, ?_, fun s hs => ?_⟩
  · unfold summarize_text
    rfl
  · simp [chooseInstruction, hs]

/-- Witness for C10: a non-empty instruction overrides the default. -/
theorem empty_instruction_falls_back_witness :
    ("Be brief." : String) ≠ "" ∧ chooseInstruction (some "Be brief.") = "Be brief." :=
  ⟨by decide, (empty_instruction_falls_back o0 "T").2.2 "Be brief." (by decide)⟩

end Seormon
